import Mathlib

set_option maxRecDepth 8192

/-!
Shallow embedding of the native Solana todo program (src/lib.rs).

Bytes are modelled as `Nat` (with `< 256` well-formedness where it matters),
public keys (`Pubkey`) as byte lists, lamport balances as `Nat` with explicit
`2 ^ 64` overflow guards.  The runtime primitive
`Pubkey::create_program_address` (a SHA-256 based hash living in the external
`solana_program` crate, out of scope per the spec) is abstracted as a
parameter `cpa`; `find_program_address` is defined from it exactly as the
runtime does: try bump seeds 255 down to 0 and return the first success.
Rust `assert!`/`?`/panic failures are modelled as `Except` errors, labelled
with the spec's error taxonomy according to which check fired.
-/

namespace Todo

/-- A public key: its raw bytes, compared for equality only. -/
abbrev Pubkey := List Nat

/-- Error taxonomy from the spec (section 7); each Rust assert/`?` failure
site is labelled with its category. -/
inductive TodoError where
  | decodeError
  | authorizationError
  | addressMismatchError
  | arithmeticError
  | callerInputError
  | invalidSeeds
  | accountError
deriving DecidableEq

/-- The Task record (src/lib.rs `struct Task`): title and description are
64-byte buffers, authority a 32-byte pubkey, id a u64, bump a u8. -/
structure Task where
  title : List Nat
  description : List Nat
  authority : Pubkey
  id : Nat
  bump : Nat
deriving DecidableEq

/-- `Task::LEN` = 169 bytes. -/
def taskLen : Nat := 169

/-- Little-endian encoding of a number into `w` bytes (borsh u64 layout). -/
def natToLe : Nat → Nat → List Nat
  | 0, _ => []
  | w + 1, n => n % 256 :: natToLe w (n / 256)

/-- Little-endian decoding of a byte list into a number. -/
def leToNat : List Nat → Nat
  | [] => 0
  | b :: rest => b + 256 * leToNat rest

/-- Borsh serialization of a Task: title ++ description ++ authority ++
id (8 bytes LE) ++ bump (1 byte), 169 bytes total. -/
def encodeTask (t : Task) : List Nat :=
  t.title ++ t.description ++ t.authority ++ natToLe 8 t.id ++ [t.bump]

/-- Borsh `Task::try_from_slice`: sequential fixed-width reads; fails unless
the input is exactly 169 bytes (borsh errors on a short read and on
unconsumed trailing bytes). -/
def decodeTask (bs : List Nat) : Except TodoError Task :=
  if bs.length = taskLen then
    let title := bs.take 64
    let r1 := bs.drop 64
    let description := r1.take 64
    let r2 := r1.drop 64
    let authority := r2.take 32
    let r3 := r2.drop 32
    let id := leToNat (r3.take 8)
    let r4 := r3.drop 8
    let bump := r4.headD 0
    .ok { title := title, description := description, authority := authority,
          id := id, bump := bump }
  else .error .decodeError

/-- All entries of a byte buffer are in range (true of every real `[u8]`). -/
def wfBytes (bs : List Nat) : Bool :=
  bs.all (fun b => b < 256)

/-- The abstract runtime primitive `Pubkey::create_program_address` over the
seeds `["task", id.to_le_bytes(), authority, [bump]]` and a program id:
`none` models the InvalidSeeds (on-curve) outcome. -/
abbrev Cpa := Nat → Pubkey → Nat → Pubkey → Option Pubkey

/-- `Task::create_pda` (src/lib.rs lines 64-76): pure recomputation of the
PDA from given seeds; the Rust `.expect("Invalid Seeds")` panic is the
`invalidSeeds` error. -/
def createPda (cpa : Cpa) (programId : Pubkey) (id : Nat) (authority : Pubkey)
    (bump : Nat) : Except TodoError Pubkey :=
  match cpa id authority bump programId with
  | some a => .ok a
  | none => .error .invalidSeeds

/-- `Pubkey::find_program_address`: search bump seeds 255 down to 0, return
the first (address, bump) with a valid (off-curve) address. -/
def findProgramAddress (cpa : Cpa) (id : Nat) (authority : Pubkey)
    (programId : Pubkey) : Except TodoError (Pubkey × Nat) :=
  match (List.range 256).reverse.findSome?
      (fun bump => (cpa id authority bump programId).map (fun a => (a, bump))) with
  | some r => .ok r
  | none => .error .invalidSeeds

/-- One storage unit handle as the program sees it (`AccountInfo`). -/
structure AccountInfo where
  key : Pubkey
  is_signer : Bool
  is_writable : Bool
  lamports : Nat
  data : List Nat
deriving DecidableEq

/-- An `assert!`-style check: succeed iff the condition holds, otherwise
fail the whole invocation with the given error label. -/
def require (p : Prop) [Decidable p] (e : TodoError) : Except TodoError Unit :=
  if p then .ok () else .error e

/-- The `CreateTask` arm of `process_instruction` (src/lib.rs lines 91-146).
`rent` stands for `Rent::get()?.minimum_balance(Task::LEN)`.  The
`invoke_signed(create_account ...)` CPI is modelled by its effect: it fails
unless the target info is the derived PDA, is a fresh empty account, and the
payer can fund it; on success the unit holds `rent` lamports and 169 zero
bytes.  Returns the updated (authority, task) pair. -/
def createTask (cpa : Cpa) (programId systemProgramId : Pubkey) (rent : Nat)
    (authority task systemProgram : AccountInfo) (id : Nat)
    (title description : List Nat) (bump : Nat) :
    Except TodoError (AccountInfo × AccountInfo) := do
  require authority.is_signer .authorizationError
  require authority.is_writable .authorizationError
  require (!task.is_signer) .authorizationError
  require task.is_writable .authorizationError
  require (systemProgram.key = systemProgramId) .authorizationError
  let fpa ← findProgramAddress cpa id authority.key programId
  let taskPda := fpa.1
  require (task.key = taskPda) .addressMismatchError
  require (task.lamports = 0 ∧ task.data = []) .accountError
  require (rent ≤ authority.lamports) .accountError
  let authority1 : AccountInfo := { authority with lamports := authority.lamports - rent }
  let task1 : AccountInfo := { task with lamports := rent, data := List.replicate taskLen 0 }
  let taskData ← decodeTask task1.data
  let taskData1 : Task := { taskData with
    title := title, description := description,
    authority := authority1.key, id := id, bump := bump }
  .ok (authority1, { task1 with data := encodeTask taskData1 })

/-- The `UpdateTask` arm of `process_instruction` (src/lib.rs lines 151-191).
Returns the updated (authority, task) pair. -/
def updateTask (cpa : Cpa) (programId : Pubkey) (authority task : AccountInfo)
    (id : Nat) (title description : Option (List Nat)) :
    Except TodoError (AccountInfo × AccountInfo) := do
  require authority.is_signer .authorizationError
  require authority.is_writable .authorizationError
  require (!task.is_signer) .authorizationError
  require task.is_writable .authorizationError
  require (title.isSome || description.isSome) .callerInputError
  let taskData ← decodeTask task.data
  require (authority.key = taskData.authority) .authorizationError
  require (id = taskData.id) .authorizationError
  let taskPda ← createPda cpa programId taskData.id taskData.authority taskData.bump
  require (task.key = taskPda) .addressMismatchError
  let taskData1 : Task := { taskData with
    title := title.getD taskData.title,
    description := description.getD taskData.description }
  .ok (authority, { task with data := encodeTask taskData1 })

/-- The `DeleteTask` arm of `process_instruction` (src/lib.rs lines 196-237).
Zeroes the task data, moves its whole balance to the authority
(`checked_add`, overflow fatal) and zeroes the task balance. -/
def deleteTask (cpa : Cpa) (programId : Pubkey) (authority task : AccountInfo)
    (id : Nat) : Except TodoError (AccountInfo × AccountInfo) := do
  require authority.is_signer .authorizationError
  require authority.is_writable .authorizationError
  require (!task.is_signer) .authorizationError
  require task.is_writable .authorizationError
  let taskData ← decodeTask task.data
  require (authority.key = taskData.authority) .authorizationError
  require (id = taskData.id) .authorizationError
  let taskPda ← createPda cpa programId taskData.id taskData.authority taskData.bump
  require (task.key = taskPda) .addressMismatchError
  let zeroed := List.replicate task.data.length 0
  let taskLamports := task.lamports
  let authorityLamports := authority.lamports
  require (authorityLamports + taskLamports < 2 ^ 64) .arithmeticError
  .ok ({ authority with lamports := authorityLamports + taskLamports },
       { task with data := zeroed, lamports := 0 })

/-- The instruction envelope (src/lib.rs `enum TodoInstruction`). -/
inductive TodoInstruction where
  | createIx (id : Nat) (title description : List Nat) (bump : Nat)
  | updateIx (id : Nat) (title description : Option (List Nat))
  | deleteIx (id : Nat)
deriving DecidableEq

/-- `process_instruction`: extract the accounts the arm expects
(`next_account_info` fails when too few are supplied) and dispatch. -/
def processInstruction (cpa : Cpa) (programId systemProgramId : Pubkey)
    (rent : Nat) (accounts : List AccountInfo) (instr : TodoInstruction) :
    Except TodoError (List AccountInfo) :=
  match instr with
  | .createIx id title description bump =>
    match accounts with
    | authority :: task :: systemProgram :: rest => do
      let (a, t) ← createTask cpa programId systemProgramId rent authority task
        systemProgram id title description bump
      .ok (a :: t :: systemProgram :: rest)
    | _ => .error .accountError
  | .updateIx id title description =>
    match accounts with
    | authority :: task :: rest => do
      let (a, t) ← updateTask cpa programId authority task id title description
      .ok (a :: t :: rest)
    | _ => .error .accountError
  | .deleteIx id =>
    match accounts with
    | authority :: task :: rest => do
      let (a, t) ← deleteTask cpa programId authority task id
      .ok (a :: t :: rest)
    | _ => .error .accountError

/-! ### Concrete sample data

A toy instantiation of the abstract address-derivation primitive and a small
ledger scene, used to evaluate the handlers on concrete inputs. -/

/-- A concrete derivation oracle for demonstrations: every bump is valid and
the address is determined by all the seeds, so distinct bumps give distinct
addresses (as the real hash does with overwhelming probability). -/
def cpaDemo : Cpa := fun id a bump pid => some (id :: bump :: (a ++ pid))

def demoPid : Pubkey := [9]

def demoSysId : Pubkey := [0]

def demoAuthKey : Pubkey := List.replicate 32 3

def demoIntruderKey : Pubkey := List.replicate 32 4

/-- The canonical PDA `cpaDemo` gives for id 5, `demoAuthKey`, bump 255. -/
def demoTaskKey : Pubkey := 5 :: 255 :: (demoAuthKey ++ demoPid)

def demoTitle : List Nat := List.replicate 64 1

def demoDescr : List Nat := List.replicate 64 2

def demoNewTitle : List Nat := List.replicate 64 8

/-- A stored record at the canonical bump. -/
def demoTask0 : Task :=
  { title := demoTitle, description := demoDescr, authority := demoAuthKey,
    id := 5, bump := 255 }

def demoAuthority : AccountInfo :=
  { key := demoAuthKey, is_signer := true, is_writable := true,
    lamports := 10, data := [] }

def demoIntruder : AccountInfo :=
  { key := demoIntruderKey, is_signer := true, is_writable := true,
    lamports := 10, data := [] }

/-- The task storage unit holding `demoTask0`, at its canonical address. -/
def demoTaskAcc : AccountInfo :=
  { key := demoTaskKey, is_signer := false, is_writable := true,
    lamports := 7, data := encodeTask demoTask0 }

def demoSysAcc : AccountInfo :=
  { key := demoSysId, is_signer := false, is_writable := false,
    lamports := 1, data := [] }

/-- A fresh, empty unit at the canonical address, ready for Create. -/
def demoFreshTask : AccountInfo :=
  { key := demoTaskKey, is_signer := false, is_writable := true,
    lamports := 0, data := [] }

/-- A handle at a non-derived address. -/
def demoWrongTask : AccountInfo :=
  { key := [1, 2, 3], is_signer := false, is_writable := true,
    lamports := 0, data := [] }

def demoTask1 : Task := { demoTask0 with title := demoNewTitle }

/-- `demoTaskAcc` after Update(title := demoNewTitle). -/
def demoUpdatedTask : AccountInfo := { demoTaskAcc with data := encodeTask demoTask1 }

/-- `demoAuthority` after the demo Delete credits it with 7 lamports. -/
def demoAuthorityAfterDelete : AccountInfo := { demoAuthority with lamports := 17 }

/-- `demoTaskAcc` after Delete: zeroed bytes, zero balance. -/
def demoDeletedTask : AccountInfo :=
  { demoTaskAcc with data := List.replicate 169 0, lamports := 0 }

/-- The record a Create with caller-supplied bump 7 writes. -/
def demoCreatedTask : Task :=
  { title := demoTitle, description := demoDescr, authority := demoAuthKey,
    id := 5, bump := 7 }

def demoTaskAfterCreate : AccountInfo :=
  { demoFreshTask with lamports := 3, data := encodeTask demoCreatedTask }

def demoAuthorityAfterCreate : AccountInfo := { demoAuthority with lamports := 7 }

/-! ### Helper lemmas -/

theorem except_bind_ok {α β : Type} {e : Except TodoError α}
    {f : α → Except TodoError β} {b : β} :
    (e >>= f) = .ok b ↔ ∃ a, e = .ok a ∧ f a = .ok b := by
  cases e <;> simp [Bind.bind, Except.bind]

theorem require_ok {p : Prop} [Decidable p] {e : TodoError} {u : Unit} :
    require p e = .ok u ↔ p := by
  unfold require
  split <;> simp_all

theorem require_pos {p : Prop} [Decidable p] {e : TodoError} (h : p) :
    require p e = .ok () := by
  simp [require, h]

theorem require_neg {p : Prop} [Decidable p] {e : TodoError} (h : ¬p) :
    require p e = .error e := by
  simp [require, h]

theorem createPda_ok {cpa : Cpa} {pid : Pubkey} {id : Nat} {a : Pubkey}
    {bump : Nat} {addr : Pubkey} :
    createPda cpa pid id a bump = .ok addr ↔ cpa id a bump pid = some addr := by
  unfold createPda
  split <;> simp_all

theorem take_append_of_length (n : Nat) (xs ys : List Nat) (h : xs.length = n) :
    (xs ++ ys).take n = xs := by
  subst h
  induction xs <;> simp_all

theorem drop_append_of_length (n : Nat) (xs ys : List Nat) (h : xs.length = n) :
    (xs ++ ys).drop n = ys := by
  subst h
  induction xs <;> simp_all

theorem natToLe_length (w n : Nat) : (natToLe w n).length = w := by
  induction w generalizing n <;> simp_all [natToLe]

theorem leToNat_natToLe (w n : Nat) : leToNat (natToLe w n) = n % 256 ^ w := by
  induction w generalizing n with
  | zero => simp [natToLe, leToNat, Nat.mod_one]
  | succ k ih =>
    rw [natToLe, leToNat, ih, pow_succ', Nat.mod_mul]

theorem leToNat_lt (bs : List Nat) (h : ∀ b ∈ bs, b < 256) :
    leToNat bs < 256 ^ bs.length := by
  induction bs with
  | nil => simp [leToNat]
  | cons b rest ih =>
    have hb : b < 256 := h b (by simp)
    have hr : leToNat rest < 256 ^ rest.length := ih (fun x hx => h x (by simp [hx]))
    simp only [leToNat, List.length_cons, pow_succ']
    calc b + 256 * leToNat rest
        < 256 + 256 * leToNat rest := by omega
      _ ≤ 256 * 256 ^ rest.length := by omega

/-- Round-trip of the Task codec at well-typed records. -/
theorem decode_encode (t : Task) (h1 : t.title.length = 64)
    (h2 : t.description.length = 64) (h3 : t.authority.length = 32)
    (h4 : t.id < 2 ^ 64) :
    decodeTask (encodeTask t) = .ok t := by
  have hlen : (encodeTask t).length = taskLen := by
    simp [encodeTask, h1, h2, h3, natToLe_length, taskLen]
  have hid : t.id % 256 ^ 8 = t.id := Nat.mod_eq_of_lt (by norm_num at h4 ⊢; omega)
  simp only [decodeTask, encodeTask] at hlen ⊢
  rw [if_pos hlen]
  simp only [List.append_assoc]
  rw [take_append_of_length 64 _ _ h1, drop_append_of_length 64 _ _ h1,
      take_append_of_length 64 _ _ h2, drop_append_of_length 64 _ _ h2,
      take_append_of_length 32 _ _ h3, drop_append_of_length 32 _ _ h3,
      take_append_of_length 8 _ _ (natToLe_length 8 t.id),
      drop_append_of_length 8 _ _ (natToLe_length 8 t.id)]
  have h4' : t.id < 18446744073709551616 := by norm_num at h4; exact h4
  simp [leToNat_natToLe, Nat.mod_eq_of_lt h4']

/-- Inversion of a successful decode: the input had exactly 169 bytes and
the fields are the fixed-offset slices. -/
theorem decodeTask_ok_fields {bs : List Nat} {t : Task} (h : decodeTask bs = .ok t) :
    bs.length = 169 ∧
    t = { title := bs.take 64, description := (bs.drop 64).take 64,
          authority := ((bs.drop 64).drop 64).take 32,
          id := leToNat ((((bs.drop 64).drop 64).drop 32).take 8),
          bump := ((((bs.drop 64).drop 64).drop 32).drop 8).headD 0 } := by
  unfold decodeTask at h
  split at h
  · next hlen =>
    cases h
    exact ⟨by simpa [taskLen] using hlen, rfl⟩
  · next => cases h

theorem decodeTask_ok_lengths {bs : List Nat} {t : Task} (h : decodeTask bs = .ok t) :
    bs.length = 169 ∧ t.title.length = 64 ∧ t.description.length = 64 ∧
    t.authority.length = 32 := by
  obtain ⟨hlen, ht⟩ := decodeTask_ok_fields h
  subst ht
  refine ⟨hlen, ?_, ?_, ?_⟩ <;> simp [hlen]

theorem wf_mem {bs : List Nat} (hwf : wfBytes bs = true) {x : Nat} (hx : x ∈ bs) :
    x < 256 := by
  simp only [wfBytes, List.all_eq_true, decide_eq_true_eq] at hwf
  exact hwf x hx

/-- A record decoded from a well-formed byte buffer has a u64 id and a u8
bump. -/
theorem decodeTask_ok_bounds {bs : List Nat} {t : Task} (h : decodeTask bs = .ok t)
    (hwf : wfBytes bs = true) : t.id < 2 ^ 64 ∧ t.bump < 256 := by
  obtain ⟨hlen, ht⟩ := decodeTask_ok_fields h
  subst ht
  constructor
  · have hlen8 : ((((bs.drop 64).drop 64).drop 32).take 8).length = 8 := by
      simp [hlen]
    have hsub : ∀ x ∈ (((bs.drop 64).drop 64).drop 32).take 8, x < 256 := by
      intro x hx
      refine wf_mem hwf ?_
      exact List.drop_subset _ _ (List.drop_subset _ _ (List.drop_subset _ _
        (List.take_subset _ _ hx)))
    have hlt := leToNat_lt _ hsub
    rw [hlen8] at hlt
    calc leToNat ((((bs.drop 64).drop 64).drop 32).take 8) < 256 ^ 8 := hlt
      _ ≤ 2 ^ 64 := by norm_num
  · have hlr : ((((bs.drop 64).drop 64).drop 32).drop 8).length = 1 := by
      simp [hlen]
    rcases hx : (((bs.drop 64).drop 64).drop 32).drop 8 with _ | ⟨x, rest⟩
    · rw [hx] at hlr
      simp at hlr
    · have hxmem : x ∈ bs := by
        have hin : x ∈ (((bs.drop 64).drop 64).drop 32).drop 8 := by
          rw [hx]; simp
        exact List.drop_subset _ _ (List.drop_subset _ _ (List.drop_subset _ _
          (List.drop_subset _ _ hin)))
      simpa using wf_mem hwf hxmem

/-! ### Claims -/

/-- C8: decoding the 169-byte encoding of any Task value whose fields have
the widths the Rust types force (64/64/32-byte buffers, u64 id), with
arbitrary byte content in title and description, yields exactly the same
value: decode ∘ encode = identity. -/
theorem c8_codec_roundtrip (t : Task) (h1 : t.title.length = 64)
    (h2 : t.description.length = 64) (h3 : t.authority.length = 32)
    (h4 : t.id < 2 ^ 64) : decodeTask (encodeTask t) = .ok t :=
  decode_encode t h1 h2 h3 h4

theorem c8_codec_roundtrip_witness :
    demoTask0.title.length = 64 ∧ demoTask0.description.length = 64 ∧
    demoTask0.authority.length = 32 ∧ demoTask0.id < 2 ^ 64 ∧
    decodeTask (encodeTask demoTask0) = .ok demoTask0 :=
  ⟨by decide, by decide, by decide, by decide,
   c8_codec_roundtrip demoTask0 (by decide) (by decide) (by decide) (by decide)⟩

/-- C9: record decoding is total on well-sized input: every input shorter
than 169 bytes yields a DecodeError (no panic), and every 169-byte buffer,
the all-zero one included, decodes successfully to some Task. -/
theorem c9_decode_total :
    (∀ bs : List Nat, bs.length < 169 → decodeTask bs = .error .decodeError) ∧
    (∀ bs : List Nat, bs.length = 169 → ∃ t, decodeTask bs = .ok t) := by
  constructor
  · intro bs h
    unfold decodeTask taskLen
    rw [if_neg (by omega)]
  · intro bs h
    unfold decodeTask
    rw [if_pos (by simpa [taskLen] using h)]
    exact ⟨_, rfl⟩

theorem c9_decode_total_witness :
    decodeTask (List.replicate 3 0) = .error .decodeError ∧
    ∃ t, decodeTask (List.replicate 169 0) = .ok t :=
  ⟨c9_decode_total.1 _ (by decide), c9_decode_total.2 _ (by decide)⟩

/-- C6: an Update invocation with both optional fields absent fails with the
caller-input error; the invocation returns an error and produces no state,
so the record is left unchanged. -/
theorem c6_update_both_none (cpa : Cpa) (programId : Pubkey)
    (authority task : AccountInfo) (id : Nat)
    (hs : authority.is_signer = true) (hw : authority.is_writable = true)
    (hts : task.is_signer = false) (htw : task.is_writable = true) :
    updateTask cpa programId authority task id none none =
      .error .callerInputError := by
  simp [updateTask, require, hs, hw, hts, htw, Bind.bind, Except.bind]

theorem c6_update_both_none_witness :
    updateTask cpaDemo demoPid demoAuthority demoTaskAcc 5 none none =
      .error .callerInputError :=
  c6_update_both_none cpaDemo demoPid demoAuthority demoTaskAcc 5
    (by decide) (by decide) (by decide) (by decide)

/-- C3: Update and Delete invocations whose signer key differs from the
authority stored in the target record fail with the authorization error,
even when id, handle address and bump are all correct; the error result
carries no state change, so the record is unchanged. -/
theorem c3_wrong_authority (cpa : Cpa) (programId : Pubkey)
    (authority task : AccountInfo) (td : Task) (id : Nat)
    (title description : Option (List Nat))
    (hs : authority.is_signer = true) (hw : authority.is_writable = true)
    (hts : task.is_signer = false) (htw : task.is_writable = true)
    (hpresent : (title.isSome || description.isSome) = true)
    (hdec : decodeTask task.data = .ok td)
    (hne : authority.key ≠ td.authority) :
    updateTask cpa programId authority task id title description =
      .error .authorizationError ∧
    deleteTask cpa programId authority task id = .error .authorizationError := by
  constructor <;>
    simp [updateTask, deleteTask, require, hs, hw, hts, htw, hpresent, hdec,
      hne, Bind.bind, Except.bind]

theorem c3_wrong_authority_witness :
    updateTask cpaDemo demoPid demoIntruder demoTaskAcc 5
      (some demoNewTitle) none = .error .authorizationError ∧
    deleteTask cpaDemo demoPid demoIntruder demoTaskAcc 5 =
      .error .authorizationError :=
  c3_wrong_authority cpaDemo demoPid demoIntruder demoTaskAcc demoTask0 5
    (some demoNewTitle) none (by decide) (by decide) (by decide) (by decide)
    (by decide) (by rfl) (by decide)

/-- C10: Create requires the third supplied account's key to equal the
system program id; when it differs the invocation fails (with an error and
no resulting state, hence before any state change). -/
theorem c10_system_program_check (cpa : Cpa)
    (programId systemProgramId : Pubkey) (rent : Nat)
    (authority task systemProgram : AccountInfo) (id : Nat)
    (title description : List Nat) (bump : Nat)
    (hs : authority.is_signer = true) (hw : authority.is_writable = true)
    (hts : task.is_signer = false) (htw : task.is_writable = true)
    (hne : systemProgram.key ≠ systemProgramId) :
    createTask cpa programId systemProgramId rent authority task systemProgram
      id title description bump = .error .authorizationError := by
  simp [createTask, require, hs, hw, hts, htw, hne, Bind.bind, Except.bind]

theorem c10_system_program_check_witness :
    createTask cpaDemo demoPid [7] 3 demoAuthority demoFreshTask demoSysAcc
      5 demoTitle demoDescr 255 = .error .authorizationError :=
  c10_system_program_check cpaDemo demoPid [7] 3 demoAuthority demoFreshTask
    demoSysAcc 5 demoTitle demoDescr 255
    (by decide) (by decide) (by decide) (by decide) (by decide)

/-- C2: Create independently re-derives the canonical (address, bump) by
the 255-down-to-0 search over (tag, id, signer key) and fails when the
supplied target handle's key differs from the derived address. -/
theorem c2_create_address_check (cpa : Cpa)
    (programId systemProgramId : Pubkey) (rent : Nat)
    (authority task systemProgram : AccountInfo) (id : Nat)
    (title description : List Nat) (bump : Nat)
    (pda : Pubkey) (foundBump : Nat)
    (hs : authority.is_signer = true) (hw : authority.is_writable = true)
    (hts : task.is_signer = false) (htw : task.is_writable = true)
    (hsys : systemProgram.key = systemProgramId)
    (hfind : findProgramAddress cpa id authority.key programId =
      .ok (pda, foundBump))
    (hne : task.key ≠ pda) :
    createTask cpa programId systemProgramId rent authority task systemProgram
      id title description bump = .error .addressMismatchError := by
  simp [createTask, require, hs, hw, hts, htw, hsys, hfind, hne,
    Bind.bind, Except.bind]

/-- C4: Update and Delete mutate nothing unless the supplied handle's key
equals the canonical PDA recomputed from the on-ledger record's own stored
id, authority and bump: any successful invocation satisfies that equation,
and a mismatch can only end in an error, which carries no mutation. -/
theorem c4_address_recomputation (cpa : Cpa) (programId : Pubkey)
    (authority task : AccountInfo) (id : Nat)
    (title description : Option (List Nat)) :
    (∀ a t, updateTask cpa programId authority task id title description =
        .ok (a, t) →
      ∃ td, decodeTask task.data = .ok td ∧
        createPda cpa programId td.id td.authority td.bump = .ok task.key) ∧
    (∀ a t, deleteTask cpa programId authority task id = .ok (a, t) →
      ∃ td, decodeTask task.data = .ok td ∧
        createPda cpa programId td.id td.authority td.bump = .ok task.key) := by
  constructor
  · intro a t h
    simp only [updateTask, except_bind_ok, require_ok, exists_const,
      Except.ok.injEq, Prod.mk.injEq] at h
    obtain ⟨-, -, -, -, -, td, hdec, -, -, pda, hpda, hkey, -⟩ := h
    exact ⟨td, hdec, by rw [hkey]; exact hpda⟩
  · intro a t h
    simp only [deleteTask, except_bind_ok, require_ok, exists_const,
      Except.ok.injEq, Prod.mk.injEq] at h
    obtain ⟨-, -, -, -, td, hdec, -, -, pda, hpda, hkey, -⟩ := h
    exact ⟨td, hdec, by rw [hkey]; exact hpda⟩

theorem c4_address_recomputation_witness :
    (∃ td, decodeTask demoTaskAcc.data = .ok td ∧
      createPda cpaDemo demoPid td.id td.authority td.bump =
        .ok demoTaskAcc.key) ∧
    (∃ td, decodeTask demoTaskAcc.data = .ok td ∧
      createPda cpaDemo demoPid td.id td.authority td.bump =
        .ok demoTaskAcc.key) :=
  ⟨(c4_address_recomputation cpaDemo demoPid demoAuthority demoTaskAcc 5
      (some demoNewTitle) none).1 demoAuthority demoUpdatedTask (by rfl),
   (c4_address_recomputation cpaDemo demoPid demoAuthority demoTaskAcc
      5 none none).2 demoAuthorityAfterDelete demoDeletedTask (by rfl)⟩

/-- C5: a successful Delete zeroes all 169 bytes of the target unit, sets
the unit's balance to exactly 0, and credits the signer with exactly the
unit's prior balance, so the sum of the two balances is conserved. -/
theorem c5_delete_effects (cpa : Cpa) (programId : Pubkey)
    (authority task : AccountInfo) (id : Nat) :
    ∀ a t, deleteTask cpa programId authority task id = .ok (a, t) →
      t.data = List.replicate 169 0 ∧ t.lamports = 0 ∧
      a.lamports = authority.lamports + task.lamports ∧
      a.lamports + t.lamports = authority.lamports + task.lamports := by
  intro a t h
  simp only [deleteTask, except_bind_ok, require_ok, exists_const,
    Except.ok.injEq, Prod.mk.injEq] at h
  obtain ⟨-, -, -, -, td, hdec, -, -, pda, hpda, hkey, -, ha, ht⟩ := h
  obtain ⟨hlen, -⟩ := decodeTask_ok_lengths hdec
  subst ha
  subst ht
  refine ⟨by simp [hlen], rfl, rfl, by simp⟩

theorem c5_delete_effects_witness :
    demoDeletedTask.data = List.replicate 169 0 ∧
    demoDeletedTask.lamports = 0 ∧
    demoAuthorityAfterDelete.lamports =
      demoAuthority.lamports + demoTaskAcc.lamports ∧
    demoAuthorityAfterDelete.lamports + demoDeletedTask.lamports =
      demoAuthority.lamports + demoTaskAcc.lamports :=
  c5_delete_effects cpaDemo demoPid demoAuthority demoTaskAcc 5
    demoAuthorityAfterDelete demoDeletedTask (by rfl)

/-- C7: a successful Update changes no balances and leaves the stored
authority, id and bump unchanged; each present optional field replaces its
64-byte buffer whole, and an absent field (in particular the description
when only a title is supplied) is byte-for-byte unchanged. -/
theorem c7_update_frame (cpa : Cpa) (programId : Pubkey)
    (authority task : AccountInfo) (id : Nat)
    (title description : Option (List Nat)) (td : Task)
    (hwf : wfBytes task.data = true)
    (hdec : decodeTask task.data = .ok td)
    (htl : ∀ s, title = some s → s.length = 64)
    (hdl : ∀ s, description = some s → s.length = 64) :
    ∀ a t, updateTask cpa programId authority task id title description =
        .ok (a, t) →
      a = authority ∧ t.lamports = task.lamports ∧ t.key = task.key ∧
      decodeTask t.data =
        .ok { title := title.getD td.title,
              description := description.getD td.description,
              authority := td.authority, id := td.id, bump := td.bump } := by
  intro a t h
  simp only [updateTask, except_bind_ok, require_ok, exists_const,
    Except.ok.injEq, Prod.mk.injEq] at h
  obtain ⟨-, -, -, -, -, td2, hdec2, -, -, pda, hpda, hkey, ha, ht⟩ := h
  have htd : td = td2 := Except.ok.inj (hdec.symm.trans hdec2)
  subst htd
  subst ha
  subst ht
  obtain ⟨-, htl64, hdl64, hauth32⟩ := decodeTask_ok_lengths hdec
  obtain ⟨hid64, -⟩ := decodeTask_ok_bounds hdec hwf
  refine ⟨rfl, rfl, rfl, ?_⟩
  refine decode_encode _ ?_ ?_ ?_ ?_
  · cases title with
    | none => simpa using htl64
    | some s => simpa using htl s rfl
  · cases description with
    | none => simpa using hdl64
    | some s => simpa using hdl s rfl
  · simpa using hauth32
  · simpa using hid64

theorem c7_update_frame_witness :
    demoAuthority = demoAuthority ∧
    demoUpdatedTask.lamports = demoTaskAcc.lamports ∧
    demoUpdatedTask.key = demoTaskAcc.key ∧
    decodeTask demoUpdatedTask.data = .ok
      { title := (some demoNewTitle).getD demoTask0.title,
        description := (none : Option (List Nat)).getD demoTask0.description,
        authority := demoTask0.authority, id := demoTask0.id,
        bump := demoTask0.bump } :=
  c7_update_frame cpaDemo demoPid demoAuthority demoTaskAcc 5
    (some demoNewTitle) none demoTask0 (by decide) (by rfl)
    (fun s hs => by cases hs; decide) (fun s hs => by cases hs)
    demoAuthority demoUpdatedTask (by rfl)

/-- C1 is false of the code: in a successful Create whose caller-supplied
bump (here 7) differs from the bump the canonical search finds (here 255),
the record still stores the caller's value, and re-deriving an address from
the stored bump does not reproduce the unit's address.  The target handle
sits at the derived address, so the create succeeds. -/
theorem c1_create_stores_caller_bump :
    createTask cpaDemo demoPid demoSysId 3 demoAuthority demoFreshTask
      demoSysAcc 5 demoTitle demoDescr 7 =
      .ok (demoAuthorityAfterCreate, demoTaskAfterCreate) ∧
    findProgramAddress cpaDemo 5 demoAuthority.key demoPid =
      .ok (demoTaskKey, 255) ∧
    decodeTask demoTaskAfterCreate.data = .ok demoCreatedTask ∧
    demoCreatedTask.bump ≠ 255 ∧
    createPda cpaDemo demoPid demoCreatedTask.id demoCreatedTask.authority
      demoCreatedTask.bump = .ok (5 :: 7 :: (demoAuthKey ++ demoPid)) ∧
    (5 :: 7 :: (demoAuthKey ++ demoPid)) ≠ demoTaskAfterCreate.key :=
  ⟨by rfl, by rfl, by rfl, by decide, by rfl, by decide⟩

theorem c2_create_address_check_witness :
    createTask cpaDemo demoPid demoSysId 3 demoAuthority demoWrongTask
      demoSysAcc 5 demoTitle demoDescr 255 = .error .addressMismatchError :=
  c2_create_address_check cpaDemo demoPid demoSysId 3 demoAuthority
    demoWrongTask demoSysAcc 5 demoTitle demoDescr 255 demoTaskKey 255
    (by decide) (by decide) (by decide) (by decide) (by decide)
    (by rfl) (by decide)

end Todo
